import Mathlib

/-!
Shallow embedding of the `xplane_plugin` crate (src/lib.rs): the `Plugin`
trait, the `PluginInfo` descriptor, and the C entry points generated by the
`xplane_plugin!` macro, together with proofs about them.

Modeling conventions:
- Strings crossing the C boundary are lists of byte values (`List Nat`).
- The static raw pointer `PLUGIN` is an `Option σ` (`none` models the null
  pointer); a trait object of the implementing type `σ` behind the pointer
  is the `σ` value itself.
- Entry points that dereference `PLUGIN` return `none` (undefined behavior)
  when the slot is null; within defined behavior they return the new slot
  value together with the trace of calls made on the plugin instance.
- `libc::strcpy` copies bytes from the source region up to and including the
  first zero byte.  The source passes the 9-byte literal b"<invalid>" to
  `strcpy` without a null terminator, so the copy continues into whatever
  memory follows the literal; that adjacent memory is an explicit `mem`
  parameter of the model.
-/

namespace XPlanePlugin

/-- Descriptor produced by `Plugin::info` (struct `PluginInfo` in
src/lib.rs); each `&str` field is modeled as its byte sequence. -/
structure PluginInfo where
  name : List Nat
  signature : List Nat
  description : List Nat
deriving DecidableEq

/-- The `Plugin` trait of src/lib.rs reified as a record of its methods for
one implementing type `σ`; the `&mut self` methods become state
transformers `σ → σ`. -/
structure Plugin (σ : Type) where
  start : Option σ
  enable : σ → σ
  disable : σ → σ
  info : σ → PluginInfo
  stop : σ → σ

/-- One observable action on the plugin instance: a trait-method call
(recording the instance value it is invoked on) or the deallocation of the
boxed instance (`drop`, recording the value being freed). -/
inductive Event (σ : Type) where
  | start
  | info (s : σ)
  | enable (s : σ)
  | disable (s : σ)
  | stop (s : σ)
  | drop (s : σ)
deriving DecidableEq

/-- Byte sequence of the Rust literal b"<invalid>": exactly the 9 bytes of
the characters, with no null terminator (Rust byte-string literals are not
null-terminated). -/
def INVALID : List Nat := [60, 105, 110, 118, 97, 108, 105, 100, 62]

/-- Model of `ffi::CString::new(s).ok()`: the bytes succeed exactly when
they contain no null byte. -/
def cstringNew (s : List Nat) : Option (List Nat) :=
  if 0 ∈ s then none else some s

/-- Bytes written by `libc::strcpy` given the memory region starting at the
source pointer: every byte up to and including the first zero is copied.
If the region (as far as modeled) holds no zero, every modeled byte is
copied; in the real program the read would simply continue further. -/
def strcpyBytes : List Nat → List Nat
  | [] => []
  | b :: rest => if b = 0 then [0] else b :: strcpyBytes rest

/-- Marshaling of one descriptor field in `XPluginStart`:
`match ffi::CString::new(field).ok()` and then `libc::strcpy` either from
the `CString` (its bytes followed by the terminator it appends) or, on
failure, from the un-terminated b"<invalid>" literal, whose strcpy read
runs past the 9 bytes into the adjacent memory `mem`. -/
def marshalField (mem s : List Nat) : List Nat :=
  match cstringNew s with
  | some cs => strcpyBytes (cs ++ [0])
  | none => strcpyBytes (INVALID ++ mem)

/-- Result of one `XPluginStart` call: the returned status code, the bytes
written into each of the three host output buffers (`none` = the buffer was
not written), the new value of the static `PLUGIN` slot, and the calls made
on the plugin. -/
structure StartResult (σ : Type) where
  ret : Int
  outName : Option (List Nat)
  outSig : Option (List Nat)
  outDescription : Option (List Nat)
  state : Option σ
  events : List (Event σ)
deriving DecidableEq

variable {σ : Type}

/-- The `XPluginStart` entry point.  `st` is the value of the static
`PLUGIN` slot on entry; `memN`, `memS`, `memD` model the memory following
the b"<invalid>" literal for each of the three strcpy fallback calls.
Mirrors the source: call `PluginType::start()`; on `Some`, box the plugin
into `PLUGIN`, call `(*PLUGIN).info()`, marshal the three fields, return 1;
on `None`, return 0 leaving `PLUGIN` and the buffers untouched. -/
def XPluginStart (p : Plugin σ) (st : Option σ) (memN memS memD : List Nat) :
    StartResult σ :=
  match p.start with
  | some plugin =>
    let info := p.info plugin
    ⟨1, some (marshalField memN info.name), some (marshalField memS info.signature),
      some (marshalField memD info.description), some plugin,
      [Event.start, Event.info plugin]⟩
  | none => ⟨0, none, none, none, st, [Event.start]⟩

/-- The `XPluginStop` entry point: `(*PLUGIN).stop()`, then free the box
(the freed value is the post-`stop` instance), then `PLUGIN = null`.
A call with the slot null dereferences a null pointer: `none`. -/
def XPluginStop (p : Plugin σ) : Option σ → Option (Option σ × List (Event σ))
  | none => none
  | some s => some (none, [Event.stop s, Event.drop (p.stop s)])

/-- The `XPluginEnable` entry point: `(*PLUGIN).enable()`.
A call with the slot null dereferences a null pointer: `none`. -/
def XPluginEnable (p : Plugin σ) : Option σ → Option (Option σ × List (Event σ))
  | none => none
  | some s => some (some (p.enable s), [Event.enable s])

/-- The `XPluginDisable` entry point: `(*PLUGIN).disable()`.
A call with the slot null dereferences a null pointer: `none`. -/
def XPluginDisable (p : Plugin σ) : Option σ → Option (Option σ × List (Event σ))
  | none => none
  | some s => some (some (p.disable s), [Event.disable s])

/-- The `XPluginReceiveMessage` entry point: its body is empty.  The opaque
parameter pointer is modeled as a plain address `inParam`; no memory at that
address is consulted. -/
def XPluginReceiveMessage (inFrom inMessage : Int) (inParam : Nat)
    (st : Option σ) : Option σ × List (Event σ) :=
  (st, [])

/-- One lifecycle entry-point invocation by the host. -/
inductive Call where
  | start
  | enable
  | disable
  | stop
deriving DecidableEq

/-- Dispatch of one host call to the matching entry point, on the current
slot value.  Buffer outputs of `XPluginStart` are not tracked here; the
adjacent-memory parameters are irrelevant to the slot and trace and are
fixed to `[]`. -/
def adapterStep (p : Plugin σ) : Option σ → Call → Option (Option σ × List (Event σ))
  | st, Call.start =>
    let r := XPluginStart p st [] [] []
    some (r.state, r.events)
  | st, Call.enable => XPluginEnable p st
  | st, Call.disable => XPluginDisable p st
  | st, Call.stop => XPluginStop p st

/-- Run a sequence of host calls through the entry points, threading the
slot and concatenating traces; `none` as soon as any step hits undefined
behavior (a null dereference). -/
def adapterRun (p : Plugin σ) : Option σ → List Call → Option (Option σ × List (Event σ))
  | st, [] => some (st, [])
  | st, c :: cs =>
    match adapterStep p st c with
    | none => none
    | some (st', tr) =>
      match adapterRun p st' cs with
      | none => none
      | some (st'', tr') => some (st'', tr ++ tr')

/-- The host-side lifecycle states of the sequencing contract. -/
inductive HostState where
  | absent
  | created
  | enabled
deriving DecidableEq

/-- The host sequencing contract as a state machine:
Absent → start → Created (when start succeeds, `ok`) or Absent (when it
fails), Created → enable → Enabled, Enabled → disable → Created,
Created → stop → Absent; every other call is out of contract. -/
def hostStep (ok : Bool) : HostState → Call → Option HostState
  | HostState.absent, Call.start => some (if ok then HostState.created else HostState.absent)
  | HostState.created, Call.enable => some HostState.enabled
  | HostState.enabled, Call.disable => some HostState.created
  | HostState.created, Call.stop => some HostState.absent
  | _, _ => none

/-- Iterated `hostStep`: `some` exactly on call sequences consistent with
the host sequencing contract. -/
def hostRun (ok : Bool) : HostState → List Call → Option HostState
  | h, [] => some h
  | h, c :: cs =>
    match hostStep ok h c with
    | none => none
    | some h' => hostRun ok h' cs

/-- Reading a C string back out of a buffer: the bytes before the first
null terminator. -/
def decodeC (bs : List Nat) : List Nat := bs.takeWhile (fun b => b != 0)

/-- A lifecycle implementation in a panic-aware semantics: each method
either returns normally or raises a panic (`Except.error`). -/
structure PluginExn (σ : Type) where
  enable : σ → Except Unit σ
  disable : σ → Except Unit σ
  stop : σ → Except Unit σ
  info : σ → Except Unit PluginInfo

/-- The `XPluginEnable` entry point in the panic-aware semantics, with the
slot holding `s`.  The body of the generated function is exactly
`(*PLUGIN).enable();` with no catch or abort conversion anywhere in the
macro, so a panic raised by `enable` leaves the entry point as a fault:
the unwind crosses the extern "C" boundary. -/
def XPluginEnableExn (p : PluginExn σ) (s : σ) : Except Unit (Option σ) :=
  (p.enable s).map some

/-- Sample descriptor: name "Test", signature "org", description "A". -/
def sampleInfo : PluginInfo :=
  ⟨[84, 101, 115, 116], [111, 114, 103], [65]⟩

/-- A concrete Plugin implementation whose `start` succeeds, like the
`TestPlugin` of the crate's test module. -/
def testPlugin : Plugin Unit :=
  ⟨some (), id, id, fun _ => sampleInfo, id⟩

/-- A concrete Plugin implementation whose `start` fails. -/
def failPlugin : Plugin Unit :=
  ⟨none, id, id, fun _ => sampleInfo, id⟩

/-- A concrete Plugin whose descriptor name is "Bad\0Name" (bytes with an
embedded null), while its signature and description are null-free. -/
def badNamePlugin : Plugin Unit :=
  ⟨some (), id, id,
    fun _ => ⟨[66, 97, 100, 0, 78, 97, 109, 101], [111, 114, 103], [65]⟩, id⟩

/-- A lifecycle implementation, in the panic-aware semantics, whose
`enable` panics. -/
def panickingPlugin : PluginExn Unit :=
  ⟨fun _ => Except.error (), fun s => Except.ok s, fun s => Except.ok s,
    fun _ => Except.ok sampleInfo⟩

theorem strcpyBytes_append_zero (s : List Nat) (h : 0 ∉ s) :
    strcpyBytes (s ++ [0]) = s ++ [0] := by
  induction s with
  | nil => simp [strcpyBytes]
  | cons b rest ih =>
    have hb : ¬ b = 0 := fun hb => h (by simp [hb])
    have hr : 0 ∉ rest := fun hr => h (by simp [hr])
    simp [strcpyBytes, hb, ih hr]

theorem strcpyBytes_append_no_null (a b : List Nat) (h : 0 ∉ a) :
    strcpyBytes (a ++ b) = a ++ strcpyBytes b := by
  induction a with
  | nil => simp
  | cons x rest ih =>
    have hx : ¬ x = 0 := fun hx => h (by simp [hx])
    have hr : 0 ∉ rest := fun hr => h (by simp [hr])
    simp [strcpyBytes, hx, ih hr]

theorem decodeC_append_zero (s : List Nat) (h : 0 ∉ s) :
    decodeC (s ++ [0]) = s := by
  induction s with
  | nil => simp [decodeC]
  | cons b rest ih =>
    have hb : ¬ b = 0 := fun hb => h (by simp [hb])
    have hr : 0 ∉ rest := fun hr => h (by simp [hr])
    simp only [decodeC, List.cons_append, List.takeWhile_cons] at ih ⊢
    simp [hb, ih hr]

theorem marshalField_no_null (mem s : List Nat) (h : 0 ∉ s) :
    marshalField mem s = s ++ [0] := by
  simp [marshalField, cstringNew, h, strcpyBytes_append_zero s h]

theorem marshalField_embedded_null (mem s : List Nat) (h : 0 ∈ s) :
    marshalField mem s = INVALID ++ strcpyBytes mem := by
  simp [marshalField, cstringNew, h,
    strcpyBytes_append_no_null INVALID mem (by decide)]

/-- C1: when `start()` returns a present instance, `XPluginStart` returns
the success code 1, stores the instance, queries `info()` on the stored
instance, and (for null-free fields) writes into each output buffer exactly
the field's bytes followed by a null terminator; decoding the written
buffer recovers the original field exactly. -/
theorem start_success_marshals (p : Plugin σ) (s0 : σ) (memN memS memD : List Nat)
    (hstart : p.start = some s0)
    (hn : 0 ∉ (p.info s0).name) (hs : 0 ∉ (p.info s0).signature)
    (hd : 0 ∉ (p.info s0).description) :
    XPluginStart p none memN memS memD =
      ⟨1, some ((p.info s0).name ++ [0]), some ((p.info s0).signature ++ [0]),
        some ((p.info s0).description ++ [0]), some s0,
        [Event.start, Event.info s0]⟩ ∧
    decodeC ((p.info s0).name ++ [0]) = (p.info s0).name ∧
    decodeC ((p.info s0).signature ++ [0]) = (p.info s0).signature ∧
    decodeC ((p.info s0).description ++ [0]) = (p.info s0).description := by
  refine ⟨?_, decodeC_append_zero _ hn, decodeC_append_zero _ hs,
    decodeC_append_zero _ hd⟩
  simp [XPluginStart, hstart, marshalField_no_null memN _ hn,
    marshalField_no_null memS _ hs, marshalField_no_null memD _ hd]

theorem start_success_marshals_witness :
    testPlugin.start = some () ∧
    0 ∉ (testPlugin.info ()).name ∧
    0 ∉ (testPlugin.info ()).signature ∧
    0 ∉ (testPlugin.info ()).description ∧
    (XPluginStart testPlugin none [] [] [] =
      ⟨1, some ((testPlugin.info ()).name ++ [0]),
        some ((testPlugin.info ()).signature ++ [0]),
        some ((testPlugin.info ()).description ++ [0]), some (),
        [Event.start, Event.info ()]⟩ ∧
      decodeC ((testPlugin.info ()).name ++ [0]) = (testPlugin.info ()).name ∧
      decodeC ((testPlugin.info ()).signature ++ [0]) = (testPlugin.info ()).signature ∧
      decodeC ((testPlugin.info ()).description ++ [0]) = (testPlugin.info ()).description) :=
  ⟨rfl, by decide, by decide, by decide,
    start_success_marshals testPlugin () [] [] [] rfl (by decide) (by decide) (by decide)⟩

/-- C2: the source passes the 9-byte literal b"<invalid>" to `strcpy`
without a null terminator, so on a descriptor field with an embedded null
the buffer receives the 9 literal bytes followed by whatever adjacent
memory holds up to its first zero — here one extra byte 65 — and not the
claimed exact 9 bytes plus terminating null. -/
theorem fallback_reads_past_literal :
    (XPluginStart badNamePlugin none [65, 0] [] []).outName =
      some (INVALID ++ [65, 0]) ∧
    (XPluginStart badNamePlugin none [65, 0] [] []).outName ≠
      some (INVALID ++ [0]) := by
  constructor
  · decide
  · decide

/-- C3: when `start()` returns absent, `XPluginStart` returns the failure
code 0, leaves the `PLUGIN` slot exactly as it was, and writes none of the
three output buffers. -/
theorem start_failure_leaves_slot (p : Plugin σ) (st : Option σ)
    (memN memS memD : List Nat) (h : p.start = none) :
    XPluginStart p st memN memS memD = ⟨0, none, none, none, st, [Event.start]⟩ := by
  simp [XPluginStart, h]

theorem start_failure_leaves_slot_witness :
    failPlugin.start = none ∧
    XPluginStart failPlugin none [] [] [] =
      ⟨0, none, none, none, none, [Event.start]⟩ :=
  ⟨rfl, start_failure_leaves_slot failPlugin none [] [] [] rfl⟩

/-- C5: with the slot holding an instance, `XPluginStop` first calls
`stop()` on that instance, then frees the box holding the post-`stop`
instance, and finally resets the slot to null; `stop` is the last call
before the deallocation event. -/
theorem stop_calls_then_drops (p : Plugin σ) (s : σ) :
    XPluginStop p (some s) = some (none, [Event.stop s, Event.drop (p.stop s)]) := rfl

/-- C7: `XPluginReceiveMessage` leaves the slot unchanged, makes no call on
the plugin, and its result does not depend on the parameter pointer (no
memory at that address is read). -/
theorem receive_message_noop (inFrom inMessage : Int) (inParam : Nat)
    (st : Option σ) :
    XPluginReceiveMessage inFrom inMessage inParam st = (st, []) ∧
    XPluginReceiveMessage inFrom inMessage inParam st =
      XPluginReceiveMessage inFrom inMessage 0 st :=
  ⟨rfl, rfl⟩

/-- C8: the macro body contains no catch or abort conversion, so in the
panic-aware semantics a panic raised by `enable()` leaves `XPluginEnable`
as a fault: the unwind reaches the extern "C" boundary uncontained. -/
theorem panic_escapes_entry_point :
    XPluginEnableExn panickingPlugin () = Except.error () := rfl

theorem slot_matches_host (p : Plugin σ) :
    ∀ (cs : List Call) (h0 : HostState) (st0 : Option σ) (hfin : HostState),
      (st0.isSome = true ↔ h0 ≠ HostState.absent) →
      hostRun p.start.isSome h0 cs = some hfin →
      ∃ st tr, adapterRun p st0 cs = some (st, tr) ∧
        (st.isSome = true ↔ hfin ≠ HostState.absent) := by
  intro cs
  induction cs with
  | nil =>
    intro h0 st0 hfin hinv hrun
    simp [hostRun] at hrun
    subst hrun
    exact ⟨st0, [], by simp [adapterRun], hinv⟩
  | cons c cs ih =>
    intro h0 st0 hfin hinv hrun
    cases c with
    | start =>
      cases h0 with
      | absent =>
        have hst0 : st0 = none := by
          cases st0 with
          | none => rfl
          | some s => simp at hinv
        subst hst0
        simp only [hostRun, hostStep] at hrun
        cases hp : p.start with
        | some s0 =>
          have hok : p.start.isSome = true := by simp [hp]
          rw [hok] at hrun
          simp only [if_true] at hrun
          obtain ⟨st, tr, ha, hi⟩ :=
            ih HostState.created (some s0) hfin (by simp) (by rw [hok]; exact hrun)
          exact ⟨st, [Event.start, Event.info s0] ++ tr,
            by simp [adapterRun, adapterStep, XPluginStart, hp, ha], hi⟩
        | none =>
          have hok : p.start.isSome = false := by simp [hp]
          rw [hok] at hrun
          simp only [Bool.false_eq_true, if_false] at hrun
          obtain ⟨st, tr, ha, hi⟩ :=
            ih HostState.absent none hfin (by simp) (by rw [hok]; exact hrun)
          exact ⟨st, [Event.start] ++ tr,
            by simp [adapterRun, adapterStep, XPluginStart, hp, ha], hi⟩
      | created => simp [hostRun, hostStep] at hrun
      | enabled => simp [hostRun, hostStep] at hrun
    | enable =>
      cases h0 with
      | absent => simp [hostRun, hostStep] at hrun
      | created =>
        obtain ⟨s, hs⟩ : ∃ s, st0 = some s := by
          cases st0 with
          | none => simp at hinv
          | some s => exact ⟨s, rfl⟩
        subst hs
        simp only [hostRun, hostStep] at hrun
        obtain ⟨st, tr, ha, hi⟩ :=
          ih HostState.enabled (some (p.enable s)) hfin (by simp) hrun
        exact ⟨st, [Event.enable s] ++ tr,
          by simp [adapterRun, adapterStep, XPluginEnable, ha], hi⟩
      | enabled => simp [hostRun, hostStep] at hrun
    | disable =>
      cases h0 with
      | absent => simp [hostRun, hostStep] at hrun
      | created => simp [hostRun, hostStep] at hrun
      | enabled =>
        obtain ⟨s, hs⟩ : ∃ s, st0 = some s := by
          cases st0 with
          | none => simp at hinv
          | some s => exact ⟨s, rfl⟩
        subst hs
        simp only [hostRun, hostStep] at hrun
        obtain ⟨st, tr, ha, hi⟩ :=
          ih HostState.created (some (p.disable s)) hfin (by simp) hrun
        exact ⟨st, [Event.disable s] ++ tr,
          by simp [adapterRun, adapterStep, XPluginDisable, ha], hi⟩
    | stop =>
      cases h0 with
      | absent => simp [hostRun, hostStep] at hrun
      | created =>
        obtain ⟨s, hs⟩ : ∃ s, st0 = some s := by
          cases st0 with
          | none => simp at hinv
          | some s => exact ⟨s, rfl⟩
        subst hs
        simp only [hostRun, hostStep] at hrun
        obtain ⟨st, tr, ha, hi⟩ :=
          ih HostState.absent none hfin (by simp) hrun
        exact ⟨st, [Event.stop s, Event.drop (p.stop s)] ++ tr,
          by simp [adapterRun, adapterStep, XPluginStop, ha], hi⟩
      | enabled => simp [hostRun, hostStep] at hrun

/-- C4: along every host call sequence consistent with the sequencing
contract, the run of the entry points hits no null dereference (the
`adapterRun` is defined, i.e. the slot is never dereferenced while null),
and the slot — an `Option`, hence holding at most one instance — is
non-empty exactly while the host state machine is between a successful
start and the matching stop. -/
theorem instance_slot_correct (p : Plugin σ) (cs : List Call) (hfin : HostState)
    (hrun : hostRun p.start.isSome HostState.absent cs = some hfin) :
    ∃ st tr, adapterRun p none cs = some (st, tr) ∧
      (st.isSome = true ↔ hfin ≠ HostState.absent) :=
  slot_matches_host p cs HostState.absent none hfin (by simp) hrun

theorem instance_slot_correct_witness :
    hostRun testPlugin.start.isSome HostState.absent
        [Call.start, Call.enable, Call.disable, Call.stop] = some HostState.absent ∧
    ∃ st tr,
      adapterRun testPlugin none [Call.start, Call.enable, Call.disable, Call.stop] =
        some (st, tr) ∧
      (st.isSome = true ↔ HostState.absent ≠ HostState.absent) :=
  ⟨by decide,
    instance_slot_correct testPlugin
      [Call.start, Call.enable, Call.disable, Call.stop] HostState.absent (by decide)⟩

/-- C6: the host call sequence start, enable, disable, enable, disable,
stop drives exactly the method calls start, info, enable, disable, enable,
disable, stop on the implementation, in that order, each on the instance
produced by the previous calls (the lineage from the stored `s0`), with the
deallocation event strictly after `stop`. -/
theorem lifecycle_sequence_trace (p : Plugin σ) (s0 : σ) (h : p.start = some s0) :
    adapterRun p none
        [Call.start, Call.enable, Call.disable, Call.enable, Call.disable, Call.stop] =
      some (none,
        [Event.start, Event.info s0,
         Event.enable s0,
         Event.disable (p.enable s0),
         Event.enable (p.disable (p.enable s0)),
         Event.disable (p.enable (p.disable (p.enable s0))),
         Event.stop (p.disable (p.enable (p.disable (p.enable s0)))),
         Event.drop (p.stop (p.disable (p.enable (p.disable (p.enable s0)))))]) := by
  simp [adapterRun, adapterStep, XPluginStart, XPluginEnable, XPluginDisable,
    XPluginStop, h]

theorem lifecycle_sequence_trace_witness :
    testPlugin.start = some () ∧
    adapterRun testPlugin none
        [Call.start, Call.enable, Call.disable, Call.enable, Call.disable, Call.stop] =
      some (none,
        [Event.start, Event.info (), Event.enable (), Event.disable (),
         Event.enable (), Event.disable (), Event.stop (), Event.drop ()]) :=
  ⟨rfl, lifecycle_sequence_trace testPlugin () rfl⟩

/-- C9 counterexample: with the descriptor name containing an embedded null
and the memory after the b"<invalid>" literal starting with byte 65, the
name buffer does not receive the null-terminated fallback literal, so the
claim's conjunction fails at this concrete input even though the other two
buffers and the return code behave as claimed. -/
theorem marshal_independence_counterexample :
    ¬ ((XPluginStart badNamePlugin none [65, 0] [] []).ret = 1 ∧
       (XPluginStart badNamePlugin none [65, 0] [] []).outName =
         some (INVALID ++ [0]) ∧
       (XPluginStart badNamePlugin none [65, 0] [] []).outSig =
         some ((badNamePlugin.info ()).signature ++ [0]) ∧
       (XPluginStart badNamePlugin none [65, 0] [] []).outDescription =
         some ((badNamePlugin.info ()).description ++ [0])) := by
  decide

/-- C9 amended: the three fields are marshaled independently — whenever
`start()` succeeds the entry point returns 1, and each of the three
buffers, regardless of the status of the other two fields, receives its
own field's null-terminated bytes when that field has no embedded null,
and otherwise receives bytes beginning with the 9 bytes of the
b"<invalid>" literal and continuing with a strcpy read of the memory
following the literal (the literal itself carries no terminator). -/
theorem marshal_independent (p : Plugin σ) (s0 : σ) (memN memS memD : List Nat)
    (hstart : p.start = some s0) :
    (XPluginStart p none memN memS memD).ret = 1 ∧
    (0 ∉ (p.info s0).name →
      (XPluginStart p none memN memS memD).outName =
        some ((p.info s0).name ++ [0])) ∧
    (0 ∈ (p.info s0).name →
      (XPluginStart p none memN memS memD).outName =
        some (INVALID ++ strcpyBytes memN)) ∧
    (0 ∉ (p.info s0).signature →
      (XPluginStart p none memN memS memD).outSig =
        some ((p.info s0).signature ++ [0])) ∧
    (0 ∈ (p.info s0).signature →
      (XPluginStart p none memN memS memD).outSig =
        some (INVALID ++ strcpyBytes memS)) ∧
    (0 ∉ (p.info s0).description →
      (XPluginStart p none memN memS memD).outDescription =
        some ((p.info s0).description ++ [0])) ∧
    (0 ∈ (p.info s0).description →
      (XPluginStart p none memN memS memD).outDescription =
        some (INVALID ++ strcpyBytes memD)) := by
  refine ⟨by simp [XPluginStart, hstart], ?_, ?_, ?_, ?_, ?_, ?_⟩
  · intro h; simp [XPluginStart, hstart, marshalField_no_null memN _ h]
  · intro h; simp [XPluginStart, hstart, marshalField_embedded_null memN _ h]
  · intro h; simp [XPluginStart, hstart, marshalField_no_null memS _ h]
  · intro h; simp [XPluginStart, hstart, marshalField_embedded_null memS _ h]
  · intro h; simp [XPluginStart, hstart, marshalField_no_null memD _ h]
  · intro h; simp [XPluginStart, hstart, marshalField_embedded_null memD _ h]

theorem marshal_independent_witness :
    badNamePlugin.start = some () ∧
    ((XPluginStart badNamePlugin none [65, 0] [] []).ret = 1 ∧
     (0 ∉ (badNamePlugin.info ()).name →
       (XPluginStart badNamePlugin none [65, 0] [] []).outName =
         some ((badNamePlugin.info ()).name ++ [0])) ∧
     (0 ∈ (badNamePlugin.info ()).name →
       (XPluginStart badNamePlugin none [65, 0] [] []).outName =
         some (INVALID ++ strcpyBytes [65, 0])) ∧
     (0 ∉ (badNamePlugin.info ()).signature →
       (XPluginStart badNamePlugin none [65, 0] [] []).outSig =
         some ((badNamePlugin.info ()).signature ++ [0])) ∧
     (0 ∈ (badNamePlugin.info ()).signature →
       (XPluginStart badNamePlugin none [65, 0] [] []).outSig =
         some (INVALID ++ strcpyBytes [])) ∧
     (0 ∉ (badNamePlugin.info ()).description →
       (XPluginStart badNamePlugin none [65, 0] [] []).outDescription =
         some ((badNamePlugin.info ()).description ++ [0])) ∧
     (0 ∈ (badNamePlugin.info ()).description →
       (XPluginStart badNamePlugin none [65, 0] [] []).outDescription =
         some (INVALID ++ strcpyBytes []))) :=
  ⟨rfl, marshal_independent badNamePlugin () [65, 0] [] [] rfl⟩

/-- C10: a completed start–stop cycle restores the adapter to its initial
state — after the cycle the slot is null again, and any continuation of
host calls behaves exactly as it would from the fresh initial state, the
cycle contributing only its own four-event trace in front. -/
theorem start_stop_cycle_resets (p : Plugin σ) (s0 : σ) (h : p.start = some s0)
    (cs : List Call) :
    adapterRun p none (Call.start :: Call.stop :: cs) =
      (adapterRun p none cs).map
        (fun r => (r.1,
          [Event.start, Event.info s0, Event.stop s0, Event.drop (p.stop s0)] ++ r.2)) := by
  simp only [adapterRun, adapterStep, XPluginStart, XPluginStop, h]
  cases hr : adapterRun p none cs with
  | none => rfl
  | some r => rfl

theorem start_stop_cycle_resets_witness :
    testPlugin.start = some () ∧
    adapterRun testPlugin none (Call.start :: Call.stop :: [Call.start, Call.stop]) =
      (adapterRun testPlugin none [Call.start, Call.stop]).map
        (fun r => (r.1,
          [Event.start, Event.info (), Event.stop (), Event.drop ()] ++ r.2)) :=
  ⟨rfl, start_stop_cycle_resets testPlugin () rfl [Call.start, Call.stop]⟩

end XPlanePlugin
